import Mathlib

/-!
Shallow embedding of the entitlement-ledger core of the athleteai backend
(`users/subscription_limits.py`, `users/credit_service.py`, `users/webhooks.py`,
`users/views.py`, `users/models.py`), together with theorems settling the
frozen claims about it.

Timestamps are modelled as integers counting microseconds (Python `datetime`
has microsecond resolution).  Calendar month addition is performed in the
source by `dateutil.relativedelta(months=1)`; as the source delegates it to
that external library, the embedding is parametric in a function
`addMonth : Int → Int` together with the library's guarantee that adding one
calendar month moves a datetime forward by at least one second (in reality by
at least 28 days).
-/

set_option autoImplicit false

namespace AthleteAI

/-- Number of microseconds in one second (`timedelta(seconds=1)`). -/
def oneSecond : Int := 1000000

/-- Number of microseconds in `timedelta(days=14)`, the free-trial length. -/
def fourteenDays : Int := 14 * 86400 * 1000000

/-- Python truthiness of an optional string: `None` and `""` are falsy. -/
def truthyS : Option String → Bool
  | none => false
  | some s => s ≠ ""

/-- Python `a or b` on an optional string and a fallback optional string. -/
def pyOrS (a b : Option String) : Option String :=
  if truthyS a then a else b

/-- Durable `Subscription` row (`users/models.py` `Subscription`, plus the
window/usage/trial columns used by `users/subscription_limits.py` and
`users/credit_service.py`). -/
structure Subscription where
  plan : String
  interval : Option String
  stripe_customer_id : Option String
  stripe_subscription_id : Option String
  status : String
  trial_start : Option Int
  trial_end : Option Int
  current_period_start : Option Int
  current_period_end : Option Int
  period_usage : Option Int
  cancel_at_period_end : Bool
deriving Repr, DecidableEq

/-- Django defaults of a freshly `get_or_create`d `Subscription` row:
`plan='free'`, `status='inactive'`, everything else null/false. -/
def defaultSubscription : Subscription :=
  { plan := "free", interval := none, stripe_customer_id := none,
    stripe_subscription_id := none, status := "inactive",
    trial_start := none, trial_end := none,
    current_period_start := none, current_period_end := none,
    period_usage := none, cancel_at_period_end := false }

/-- Durable `ReportPurchase` row (`users/models.py` `ReportPurchase`, plus the
`consumed`/`consumed_at` columns used by `users/credit_service.py`).  `id` is
the auto-increment primary key, so creation order is ascending `id`. -/
structure ReportPurchase where
  id : Nat
  stripe_payment_intent : String
  amount : Int
  consumed : Bool
  consumed_at : Option Int
deriving Repr, DecidableEq

/-- The durable state of one user's slice of the ledger: the (lazily created)
`Subscription` row and the user's `ReportPurchase` rows. -/
structure LedgerState where
  sub : Option Subscription
  purchases : List ReportPurchase
deriving Repr, DecidableEq

/-- Monthly caps from `LIMITS` in `users/subscription_limits.py`, as read by
`LIMITS.get(plan, \x7b\x7d).get("monthly", 0)`. -/
def limitsMonthly (plan : String) : Int :=
  if plan = "free" then 0
  else if plan = "essentials" then 6
  else if plan = "precision" then 12
  else 0

/-- Source `billing_window_from(start)`: `(start, start + 1 month - 1s)`,
with month addition delegated to the calendar library `addMonth`. -/
def billing_window_from (addMonth : Int → Int) (start : Int) : Int × Int :=
  (start, addMonth start - oneSecond)

/-- The `while now > sub.current_period_end` loop of `ensure_period`: advance
the window by whole months, resetting usage on every advance, until `now` no
longer lies beyond the window end.  Returns the final
`(current_period_start, current_period_end, period_usage)`.  Termination is by
the library guarantee `hm` that a calendar month is at least one second long:
each iteration moves the window end forward by at least one second. -/
def rollForward (addMonth : Int → Int)
    (hm : ∀ t : Int, t + oneSecond ≤ addMonth t)
    (now : Int) (s e : Int) (u : Option Int) : Int × Int × Option Int :=
  if _h : now > e then
    rollForward addMonth hm now (e + oneSecond)
      (addMonth (e + oneSecond) - oneSecond) (some 0)
  else
    (s, e, u)
termination_by (now - e).toNat
decreasing_by
  have h1 := hm (e + oneSecond)
  have h2 : (0 : Int) < oneSecond := by decide
  omega

/-- Source `ensure_period(sub)`: make sure a rolling-month window exists and
is current, resetting `period_usage` whenever a new window starts.  `now` is
the single instant returned by `timezone.now()`. -/
def ensure_period (addMonth : Int → Int)
    (hm : ∀ t : Int, t + oneSecond ≤ addMonth t)
    (now : Int) (sub : Subscription) : Subscription :=
  match sub.current_period_start, sub.current_period_end with
  | some s0, some e0 =>
      let r := rollForward addMonth hm now s0 e0 sub.period_usage
      { sub with current_period_start := some r.1,
                 current_period_end := some r.2.1,
                 period_usage := r.2.2 }
  | _, _ =>
      let w := billing_window_from addMonth now
      { sub with current_period_start := some w.1,
                 current_period_end := some w.2,
                 period_usage := some 0 }

/-- Source `remaining_subscription_credits(sub)`: remaining subscription
credits for the current rolling window.  Returns the (possibly window-rolled
and saved) subscription row together with the count, since `ensure_period`
durably mutates the row. -/
def remaining_subscription_credits (addMonth : Int → Int)
    (hm : ∀ t : Int, t + oneSecond ≤ addMonth t)
    (now : Int) (sub : Subscription) : Subscription × Int :=
  let sub := ensure_period addMonth hm now sub
  let plan := if sub.plan = "" then "free" else sub.plan
  if plan = "free" then
    let trialActive : Bool :=
      sub.status = "trialing" && (match sub.trial_end with
        | some te => decide (now ≤ te)
        | none => false)
    if trialActive then
      let used := sub.period_usage.getD 0
      (sub, max 0 (1 - used))
    else
      (sub, 0)
  else
    let cap := limitsMonthly plan
    let used := sub.period_usage.getD 0
    (sub, max 0 (cap - used))

/-- Source `stamp_free_trial(sub)`: start the 14-day free trial and open a
fresh rolling monthly window starting now. -/
def stamp_free_trial (addMonth : Int → Int) (now : Int)
    (sub : Subscription) : Subscription :=
  let w := billing_window_from addMonth now
  { sub with status := "trialing",
             trial_start := some now,
             trial_end := some (now + fourteenDays),
             current_period_start := some w.1,
             current_period_end := some w.2,
             period_usage := some 0 }

/-- Ephemeral `CreditTicket` (`users/credit_service.py`). -/
structure CreditTicket where
  source : String
  purchase_id : Option Nat
  user_id : Nat
  units : Int
deriving Repr, DecidableEq

/-- Accumulator step keeping the row with the smallest primary key. -/
def minIdAcc (acc : Option ReportPurchase) (p : ReportPurchase) : Option ReportPurchase :=
  match acc with
  | none => some p
  | some q => if p.id < q.id then some p else some q

/-- Source query `ReportPurchase.objects.filter(user=user, consumed=False)
.order_by("id").first()`: the unconsumed purchase with the smallest primary
key, i.e. the oldest by creation order. -/
def oldestUnconsumed (ps : List ReportPurchase) : Option ReportPurchase :=
  (ps.filter (fun p => ¬ p.consumed)).foldl minIdAcc none

/-- Exact failure message of `reserve_credit` when subscription credits are
insufficient. -/
def insufficientMsg (units remaining : Int) : String :=
  "Not enough subscription credits. Need " ++ toString units ++
    ", have " ++ toString remaining ++ ". Buy a one-time PDF or upgrade your plan."

/-- Source `reserve_credit(user, units)`.  Returns the
`(ok, ticket, message)` triple together with the resulting durable state:
`get_or_create` may create the `Subscription` row and
`remaining_subscription_credits` runs `ensure_period`, which saves any window
roll. -/
def reserve_credit (addMonth : Int → Int)
    (hm : ∀ t : Int, t + oneSecond ≤ addMonth t)
    (now : Int) (user_id : Nat) (units : Int) (st : LedgerState) :
    (Bool × Option CreditTicket × String) × LedgerState :=
  if units ≤ 0 then
    ((false, none, "Invalid match count."), st)
  else
    match oldestUnconsumed st.purchases with
    | some purchase =>
        ((true,
          some { source := "one_time", purchase_id := some purchase.id,
                 user_id := user_id, units := 1 },
          "using one-time credit"), st)
    | none =>
        let sub0 := st.sub.getD defaultSubscription
        let r := remaining_subscription_credits addMonth hm now sub0
        if r.2 ≥ units then
          ((true,
            some { source := "subscription", purchase_id := none,
                   user_id := user_id, units := units },
            "using subscription credits (" ++ toString units ++ ")"),
           { st with sub := some r.1 })
        else
          ((false, none, insufficientMsg units r.2),
           { st with sub := some r.1 })

/-- Source `commit_credit(ticket)`: consume the reserved credit, inside a
transaction holding a `select_for_update` row lock.  `none` models the
`DoesNotExist` exception of the locked `get` when the referenced row is
missing.  `now` is `timezone.now()` used for `consumed_at`. -/
def commit_credit (now : Int) (ticket : CreditTicket) (st : LedgerState) :
    Option LedgerState :=
  if ticket.source = "one_time" then
    match ticket.purchase_id with
    | none => none
    | some pid =>
        match st.purchases.find? (fun p => decide (p.id = pid)) with
        | none => none
        | some _ =>
            some { st with purchases := st.purchases.map (fun p =>
              if p.id = pid ∧ ¬ p.consumed then
                { p with consumed := true, consumed_at := some now }
              else p) }
  else
    match st.sub with
    | none => none
    | some s =>
        let s2 := { s with period_usage := some (s.period_usage.getD 0 + ticket.units) }
        some { st with sub := some s2 }

/-- The relevant part of a Stripe price object: `lookup_key`, `unit_amount`
and `recurring.interval`, each possibly absent. -/
structure StripePrice where
  lookup_key : Option String
  unit_amount : Option Int
  recurring_interval : Option String
deriving Repr, DecidableEq

/-- Checkout-session metadata carrying optional `plan` and `interval` keys;
the surrounding `Option` models an absent or empty (falsy) metadata dict. -/
structure SessionMeta where
  plan : Option String
  interval : Option String
deriving Repr, DecidableEq

/-- The relevant part of a Stripe subscription object as seen by the webhook
handler: the items' price objects, and the `status`, `current_period_end`
(a timestamp) and `cancel_at_period_end` fields.  An absent `status` key is
`none` (the handler then keeps the local status). -/
structure StripeSubPayload where
  items : List StripePrice
  status : Option String
  current_period_end : Option Int
  cancel_at_period_end : Bool
deriving Repr, DecidableEq

/-- Source `_plan_interval_from_subscription(stripe_sub, session_meta)`:
derive `(plan, interval)` from the first item's `price.lookup_key`
(split at the first underscore), falling back to session metadata, falling
back to the price-amount table `(399, 3840) ↦ essentials`,
`(799, 7670) ↦ precision` plus `recurring.interval`. -/
def plan_interval_from_subscription (payload : StripeSubPayload)
    (session_meta : Option SessionMeta) : Option String × Option String :=
  let price := payload.items.head?
  let lookup_key := price.bind (fun p => p.lookup_key)
  let pi0 : Option String × Option String :=
    match lookup_key with
    | some lk =>
        if lk ≠ "" ∧ lk.contains '_' then
          let parts := lk.splitOn "_"
          (some (parts.headD ""), some (String.intercalate "_" parts.tail))
        else (none, none)
    | none => (none, none)
  let pi1 :=
    if ¬ truthyS pi0.1 ∨ ¬ truthyS pi0.2 then
      match session_meta with
      | some m => (pyOrS pi0.1 m.plan, pyOrS pi0.2 m.interval)
      | none => pi0
    else pi0
  if ¬ truthyS pi1.1 ∨ ¬ truthyS pi1.2 then
    match price with
    | some pr =>
        let interval := pyOrS pi1.2 pr.recurring_interval
        let plan :=
          match pr.unit_amount with
          | some u =>
              if u = 399 ∨ u = 3840 then pyOrS pi1.1 (some "essentials")
              else if u = 799 ∨ u = 7670 then pyOrS pi1.1 (some "precision")
              else pi1.1
          | none => pi1.1
        (plan, interval)
    | none => pi1
  else pi1

/-- Source `stripe_webhook`, `checkout.session.completed` with
`mode == "subscription"` (the row update after the user, customer id and
Stripe subscription have been resolved): `plan = derived or previous or
"free"`, `interval` overwritten with the derived value, provider subscription
reference and provider-truth fields copied in. -/
def checkout_subscription_completed (payload : StripeSubPayload)
    (session_meta : Option SessionMeta) (sub_id : String)
    (sub_rec : Subscription) : Subscription :=
  let d := plan_interval_from_subscription payload session_meta
  let plan :=
    if truthyS d.1 then d.1.getD ""
    else if sub_rec.plan ≠ "" then sub_rec.plan
    else "free"
  { sub_rec with plan := plan, interval := d.2,
                 stripe_subscription_id := some sub_id,
                 status := payload.status.getD sub_rec.status,
                 current_period_end := payload.current_period_end,
                 cancel_at_period_end := payload.cancel_at_period_end }

/-- Source `stripe_webhook`, `checkout.session.completed` with
`mode == "payment"`: create a `ReportPurchase` keyed by the payment intent
unless one with the same reference already exists.  `nextId` is the
auto-increment primary key the database would assign. -/
def checkout_payment_completed (payment_intent : Option String)
    (amount_total : Option Int) (nextId : Nat)
    (ps : List ReportPurchase) : List ReportPurchase :=
  match payment_intent with
  | some p0 =>
      if p0 ≠ "" ∧ ¬ ps.any (fun p => decide (p.stripe_payment_intent = p0)) then
        ps ++ [{ id := nextId, stripe_payment_intent := p0,
                 amount := amount_total.getD 0, consumed := false,
                 consumed_at := none }]
      else ps
  | none => ps

/-- Source `stripe_webhook`, `customer.subscription.created/updated/deleted`
branch, acting on the resolved local row: copy derived plan/interval when
truthy, copy status/period-end/cancel-flag from the payload, and on a
`deleted` event force `plan=free, interval=null, stripe_subscription_id=null,
status=canceled`. -/
def subscription_lifecycle_event (isDeleted : Bool)
    (payload : StripeSubPayload) (sub_rec : Subscription) : Subscription :=
  let d := plan_interval_from_subscription payload none
  let r1 := if truthyS d.1 then { sub_rec with plan := d.1.getD "" } else sub_rec
  let r2 := if truthyS d.2 then { r1 with interval := d.2 } else r1
  let r3 := { r2 with status := payload.status.getD r2.status,
                      current_period_end := payload.current_period_end,
                      cancel_at_period_end := payload.cancel_at_period_end }
  if isDeleted then
    { r3 with plan := "free", interval := none,
              stripe_subscription_id := none, status := "canceled" }
  else r3

/-- Source `stripe_webhook`, `invoice.payment_failed` branch on a resolved
row: mark the subscription `past_due`. -/
def invoice_payment_failed (sub : Subscription) : Subscription :=
  { sub with status := "past_due" }

/-- Source `CreateCheckoutSessionView.post`, free-plan branch
(`flow_type == "free" or plan == "free"`): activate the free plan locally
with no Stripe call. -/
def free_plan_activate (sub : Subscription) : Subscription :=
  { sub with plan := "free", interval := none, status := "active",
             stripe_subscription_id := none }

/-- Source `CancelSubscriptionView.post` with `at_period_end == False`:
delete the Stripe subscription and optimistically mark the local row
canceled.  `none` models the 400 response (no mutation) when there is no
provider subscription reference. -/
def cancel_subscription_now (sub : Subscription) : Option Subscription :=
  if truthyS sub.stripe_subscription_id then
    some { sub with status := "canceled", cancel_at_period_end := false }
  else none

/-- Source `CancelSubscriptionView.post` with `at_period_end == True`:
flag cancellation at period end, leaving status untouched. -/
def cancel_subscription_at_period_end (sub : Subscription) : Option Subscription :=
  if truthyS sub.stripe_subscription_id then
    some { sub with cancel_at_period_end := true }
  else none

/-- The spec's ledger invariant: a canceled subscription has its provider
subscription reference cleared and its plan reset to `free`. -/
def canceledInvariant (s : Subscription) : Prop :=
  s.status = "canceled" → s.stripe_subscription_id = none ∧ s.plan = "free"

instance (s : Subscription) : Decidable (canceledInvariant s) := by
  unfold canceledInvariant; infer_instance

/-! ## General lemmas about the window calculator -/

theorem rollForward_stop (a : Int → Int) (h : ∀ t : Int, t + oneSecond ≤ a t)
    (now s e : Int) (u : Option Int) (hle : ¬ now > e) :
    rollForward a h now s e u = (s, e, u) := by
  rw [rollForward]; simp [hle]

theorem rollForward_step (a : Int → Int) (h : ∀ t : Int, t + oneSecond ≤ a t)
    (now s e : Int) (u : Option Int) (hgt : now > e) :
    rollForward a h now s e u
      = rollForward a h now (e + oneSecond) (a (e + oneSecond) - oneSecond) (some 0) := by
  rw [rollForward]; simp [hgt]

theorem rollForward_now_le (a : Int → Int) (h : ∀ t : Int, t + oneSecond ≤ a t)
    (now s e : Int) (u : Option Int) :
    now ≤ (rollForward a h now s e u).2.1 := by
  induction s, e, u using rollForward.induct a h now with
  | case1 s e u hgt ih => rw [rollForward_step a h now s e u hgt]; exact ih
  | case2 s e u hle => rw [rollForward_stop a h now s e u hle]; exact not_lt.mp hle

theorem rollForward_usage_cases (a : Int → Int) (h : ∀ t : Int, t + oneSecond ≤ a t)
    (now : Int) : ∀ (s e : Int) (u : Option Int),
    (rollForward a h now s e u).2.2 = some 0 ∨ rollForward a h now s e u = (s, e, u) := by
  intro s e u
  induction s, e, u using rollForward.induct a h now with
  | case1 s e u hgt ih =>
      left
      rw [rollForward_step a h now s e u hgt]
      rcases ih with h1 | h1
      · exact h1
      · rw [h1]
  | case2 s e u hle => right; exact rollForward_stop a h now s e u hle

theorem rollForward_usage_reset (a : Int → Int) (h : ∀ t : Int, t + oneSecond ≤ a t)
    (now s e : Int) (u : Option Int) (hgt : now > e) :
    (rollForward a h now s e u).2.2 = some 0 := by
  rw [rollForward_step a h now s e u hgt]
  rcases rollForward_usage_cases a h now (e + oneSecond) (a (e + oneSecond) - oneSecond)
      (some 0) with h1 | h1
  · exact h1
  · rw [h1]

/-- When a window exists the fields written by `ensure_period` are exactly the
result of the roll-forward loop. -/
theorem ensure_period_eq_roll (a : Int → Int) (h : ∀ t : Int, t + oneSecond ≤ a t)
    (now : Int) (sub : Subscription) (s0 e0 : Int)
    (hs : sub.current_period_start = some s0) (he : sub.current_period_end = some e0) :
    ensure_period a h now sub =
      { sub with
        current_period_start := some (rollForward a h now s0 e0 sub.period_usage).1,
        current_period_end := some (rollForward a h now s0 e0 sub.period_usage).2.1,
        period_usage := (rollForward a h now s0 e0 sub.period_usage).2.2 } := by
  obtain ⟨p, i, sc, ss, stt, ts, te, cps, cpe, pu, ca⟩ := sub
  simp only at hs he
  subst hs he
  rfl

theorem ensure_period_no_window (a : Int → Int) (h : ∀ t : Int, t + oneSecond ≤ a t)
    (now : Int) (sub : Subscription)
    (hs : sub.current_period_start = none ∨ sub.current_period_end = none) :
    ensure_period a h now sub =
      { sub with current_period_start := some now,
                 current_period_end := some (a now - oneSecond),
                 period_usage := some 0 } := by
  obtain ⟨p, i, sc, ss, stt, ts, te, cps, cpe, pu, ca⟩ := sub
  simp only at hs
  rcases cps with _ | s0 <;> rcases cpe with _ | e0 <;> first
    | rfl
    | (exfalso; rcases hs with h1 | h1 <;> simp at h1)

theorem ensure_period_within (a : Int → Int) (h : ∀ t : Int, t + oneSecond ≤ a t)
    (now : Int) (sub : Subscription) (s0 e0 : Int)
    (hs : sub.current_period_start = some s0) (he : sub.current_period_end = some e0)
    (hle : ¬ now > e0) :
    ensure_period a h now sub = sub := by
  rw [ensure_period_eq_roll a h now sub s0 e0 hs he,
      rollForward_stop a h now s0 e0 sub.period_usage hle]
  obtain ⟨p, i, sc, ss, stt, ts, te, cps, cpe, pu, ca⟩ := sub
  simp only at hs he
  subst hs he
  rfl

theorem ensure_period_now_le_end (a : Int → Int) (h : ∀ t : Int, t + oneSecond ≤ a t)
    (now : Int) (sub : Subscription) :
    ∃ e', (ensure_period a h now sub).current_period_end = some e' ∧ now ≤ e' := by
  rcases hs : sub.current_period_start with _ | s0
  · rw [ensure_period_no_window a h now sub (Or.inl hs)]
    refine ⟨a now - oneSecond, rfl, ?_⟩
    have h1 := h now
    omega
  · rcases he : sub.current_period_end with _ | e0
    · rw [ensure_period_no_window a h now sub (Or.inr he)]
      refine ⟨a now - oneSecond, rfl, ?_⟩
      have h1 := h now
      omega
    · rw [ensure_period_eq_roll a h now sub s0 e0 hs he]
      exact ⟨_, rfl, rollForward_now_le a h now s0 e0 sub.period_usage⟩

theorem ensure_period_rolled_usage (a : Int → Int) (h : ∀ t : Int, t + oneSecond ≤ a t)
    (now : Int) (sub : Subscription) (s0 e0 : Int)
    (hs : sub.current_period_start = some s0) (he : sub.current_period_end = some e0)
    (hgt : now > e0) :
    (ensure_period a h now sub).period_usage = some 0 := by
  rw [ensure_period_eq_roll a h now sub s0 e0 hs he]
  exact rollForward_usage_reset a h now s0 e0 sub.period_usage hgt

theorem ensure_period_status (a : Int → Int) (h : ∀ t : Int, t + oneSecond ≤ a t)
    (now : Int) (sub : Subscription) :
    (ensure_period a h now sub).status = sub.status := by
  unfold ensure_period; split <;> rfl

theorem ensure_period_plan (a : Int → Int) (h : ∀ t : Int, t + oneSecond ≤ a t)
    (now : Int) (sub : Subscription) :
    (ensure_period a h now sub).plan = sub.plan := by
  unfold ensure_period; split <;> rfl

theorem ensure_period_ssid (a : Int → Int) (h : ∀ t : Int, t + oneSecond ≤ a t)
    (now : Int) (sub : Subscription) :
    (ensure_period a h now sub).stripe_subscription_id = sub.stripe_subscription_id := by
  unfold ensure_period; split <;> rfl

theorem ensure_period_trial_end (a : Int → Int) (h : ∀ t : Int, t + oneSecond ≤ a t)
    (now : Int) (sub : Subscription) :
    (ensure_period a h now sub).trial_end = sub.trial_end := by
  unfold ensure_period; split <;> rfl

theorem remaining_fst (a : Int → Int) (h : ∀ t : Int, t + oneSecond ≤ a t)
    (now : Int) (sub : Subscription) :
    (remaining_subscription_credits a h now sub).1 = ensure_period a h now sub := by
  unfold remaining_subscription_credits
  dsimp only
  repeat' split
  all_goals rfl

/-! ## General lemmas about the oldest-unconsumed-purchase query -/

theorem minIdAcc_none (p : ReportPurchase) : minIdAcc none p = some p := rfl

theorem minIdAcc_some (q p : ReportPurchase) :
    minIdAcc (some q) p = if p.id < q.id then some p else some q := rfl

theorem foldl_minIdAcc_mem :
    ∀ (l : List ReportPurchase) (acc : Option ReportPurchase) (r : ReportPurchase),
      l.foldl minIdAcc acc = some r → acc = some r ∨ r ∈ l := by
  intro l
  induction l with
  | nil => intro acc r hr; exact Or.inl hr
  | cons p l ih =>
      intro acc r hr
      simp only [List.foldl_cons] at hr
      rcases ih (minIdAcc acc p) r hr with h1 | h1
      · rcases acc with _ | q
        · rw [minIdAcc_none] at h1
          obtain rfl := Option.some_inj.mp h1
          right; exact List.mem_cons_self _ _
        · rw [minIdAcc_some] at h1
          by_cases hlt : p.id < q.id
          · rw [if_pos hlt] at h1
            obtain rfl := Option.some_inj.mp h1
            right; exact List.mem_cons_self _ _
          · rw [if_neg hlt] at h1
            left; exact h1
      · right; right; exact h1

theorem foldl_minIdAcc_min :
    ∀ (l : List ReportPurchase) (acc : Option ReportPurchase) (r : ReportPurchase),
      l.foldl minIdAcc acc = some r →
        (∀ a, acc = some a → r.id ≤ a.id) ∧ (∀ q ∈ l, r.id ≤ q.id) := by
  intro l
  induction l with
  | nil =>
      intro acc r hr
      refine ⟨fun a ha => ?_, fun q hq => absurd hq (List.not_mem_nil q)⟩
      rw [ha] at hr
      rw [Option.some_inj.mp hr]
  | cons p l ih =>
      intro acc r hr
      simp only [List.foldl_cons] at hr
      obtain ⟨hacc, hl⟩ := ih (minIdAcc acc p) r hr
      constructor
      · intro a ha
        subst ha
        rw [minIdAcc_some] at hacc
        by_cases hlt : p.id < a.id
        · have h2 := hacc p (by rw [if_pos hlt])
          omega
        · exact hacc a (by rw [if_neg hlt])
      · intro q hq
        rcases List.mem_cons.mp hq with h1 | h1
        · subst h1
          rcases acc with _ | b
          · exact hacc q rfl
          · rw [minIdAcc_some] at hacc
            by_cases hlt : q.id < b.id
            · exact hacc q (by rw [if_pos hlt])
            · have h2 := hacc b (by rw [if_neg hlt])
              omega
        · exact hl q h1

theorem foldl_minIdAcc_isSome :
    ∀ (l : List ReportPurchase) (a : ReportPurchase),
      (l.foldl minIdAcc (some a)).isSome := by
  intro l
  induction l with
  | nil => intro a; rfl
  | cons p l ih =>
      intro a
      simp only [List.foldl_cons, minIdAcc_some]
      by_cases hlt : p.id < a.id
      · rw [if_pos hlt]; exact ih p
      · rw [if_neg hlt]; exact ih a

/-- A characterisation of `oldestUnconsumed`: the returned row is an
unconsumed purchase minimal by primary key among all unconsumed purchases. -/
theorem oldestUnconsumed_spec (ps : List ReportPurchase) (p : ReportPurchase)
    (hp : oldestUnconsumed ps = some p) :
    p ∈ ps ∧ p.consumed = false ∧ ∀ q ∈ ps, q.consumed = false → p.id ≤ q.id := by
  unfold oldestUnconsumed at hp
  have hmem := foldl_minIdAcc_mem _ _ _ hp
  have hmin := (foldl_minIdAcc_min _ _ _ hp).2
  simp only [Option.some.injEq] at hmem
  rcases hmem with h1 | h1
  · exact Option.noConfusion h1
  · have h2 := List.mem_filter.mp h1
    refine ⟨h2.1, by simpa using h2.2, fun q hq hqc => ?_⟩
    exact hmin q (List.mem_filter.mpr ⟨hq, by simp [hqc]⟩)

/-- If some unconsumed purchase exists, `oldestUnconsumed` finds one. -/
theorem oldestUnconsumed_isSome (ps : List ReportPurchase) (q : ReportPurchase)
    (hq : q ∈ ps) (hqc : q.consumed = false) :
    (oldestUnconsumed ps).isSome := by
  unfold oldestUnconsumed
  have h1 : q ∈ ps.filter (fun p => ¬ p.consumed) :=
    List.mem_filter.mpr ⟨hq, by simp [hqc]⟩
  rcases hf : ps.filter (fun p => ¬ p.consumed) with _ | ⟨x, xs⟩
  · rw [hf] at h1; exact absurd h1 (List.not_mem_nil q)
  · rw [hf]
    simp only [List.foldl_cons]
    show (xs.foldl minIdAcc (minIdAcc none x)).isSome
    exact foldl_minIdAcc_isSome xs x

/-- If every purchase is consumed, `oldestUnconsumed` finds nothing. -/
theorem oldestUnconsumed_none (ps : List ReportPurchase)
    (hps : ∀ q ∈ ps, q.consumed = true) :
    oldestUnconsumed ps = none := by
  unfold oldestUnconsumed
  have h1 : ps.filter (fun p => ¬ p.consumed) = [] := by
    rw [List.filter_eq_nil_iff]
    intro q hq
    simp [hps q hq]
  rw [h1]
  rfl

/-! ## Concrete instances used by witnesses and counterexamples -/

/-- A concrete calendar-month-addition function (a 30-day month), one
admissible instance of the `relativedelta` month addition the source
delegates to. -/
def addMonth30 : Int → Int := fun t => t + 30 * 86400 * 1000000

theorem addMonth30_ge : ∀ t : Int, t + oneSecond ≤ addMonth30 t := by
  intro t; unfold addMonth30 oneSecond; omega

/-- An `essentials` subscription with usage 5 inside the window started at
time 0. -/
def essSub : Subscription :=
  { plan := "essentials", interval := some "month", stripe_customer_id := none,
    stripe_subscription_id := some "sub_123", status := "active",
    trial_start := none, trial_end := none,
    current_period_start := some 0,
    current_period_end := some (addMonth30 0 - oneSecond),
    period_usage := some 5, cancel_at_period_end := false }

/-! ## Claim theorems -/

/-- C5: for every `customer.subscription.deleted` event that resolves to a
local Subscription row, after processing the row has `plan = free`,
`interval = null`, provider subscription reference `= null` and
`status = canceled`, regardless of what plan, interval, status, or other
fields the event payload carries. -/
theorem deleted_event_forces_free_canceled (payload : StripeSubPayload)
    (sub_rec : Subscription) :
    (subscription_lifecycle_event true payload sub_rec).plan = "free" ∧
    (subscription_lifecycle_event true payload sub_rec).interval = none ∧
    (subscription_lifecycle_event true payload sub_rec).stripe_subscription_id = none ∧
    (subscription_lifecycle_event true payload sub_rec).status = "canceled" :=
  ⟨rfl, rfl, rfl, rfl⟩

/-- A subscription payload with no line items (so no lookup key and no price
amount) — plan/interval derivation fails on it. -/
def noItemsPayload : StripeSubPayload :=
  { items := [], status := some "active", current_period_end := some 1700000000000000,
    cancel_at_period_end := false }

/-- C10: in the checkout-completed subscription branch, when `(plan,
interval)` cannot be derived from the price lookup key, the session metadata,
or the price-amount fallback table, the handler keeps the previous plan
(defaulting to `free`) but unconditionally overwrites `interval` with the
derived value, so `interval` becomes null while `plan` is preserved. -/
theorem checkout_derivation_failure_keeps_plan (payload : StripeSubPayload)
    (meta : Option SessionMeta) (sub_id : String) (sub_rec : Subscription)
    (h : plan_interval_from_subscription payload meta = (none, none)) :
    (checkout_subscription_completed payload meta sub_id sub_rec).plan
        = (if sub_rec.plan = "" then "free" else sub_rec.plan) ∧
    (checkout_subscription_completed payload meta sub_id sub_rec).interval = none := by
  unfold checkout_subscription_completed
  rw [h]
  constructor
  · show (if truthyS (none, (none : Option String)).1 then ((none, (none : Option String)).1).getD ""
      else if sub_rec.plan ≠ "" then sub_rec.plan else "free")
      = (if sub_rec.plan = "" then "free" else sub_rec.plan)
    by_cases hp : sub_rec.plan = "" <;> simp [truthyS, hp]
  · rfl

/-- Witness for C10: a payload with no items and no metadata fails
derivation, and the handler keeps `essentials` while nulling the interval. -/
theorem checkout_derivation_failure_keeps_plan_witness :
    plan_interval_from_subscription noItemsPayload none = (none, none) ∧
    ((checkout_subscription_completed noItemsPayload none "sub_9" essSub).plan
        = (if essSub.plan = "" then "free" else essSub.plan) ∧
     (checkout_subscription_completed noItemsPayload none "sub_9" essSub).interval = none) :=
  ⟨by decide, checkout_derivation_failure_keeps_plan noItemsPayload none "sub_9" essSub (by decide)⟩

/-- Number of `ReportPurchase` rows carrying a given provider payment
reference. -/
def countRef (q : String) (ps : List ReportPurchase) : Nat :=
  (ps.filter (fun p => p.stripe_payment_intent = q)).length

/-- C8: applying the same one-time-mode `checkout.session.completed` event
twice with the same payment reference yields exactly one `ReportPurchase`
row: the second application creates nothing, and at most one row per provider
payment reference ever exists. -/
theorem checkout_payment_idempotent (p0 : String) (amt : Option Int)
    (id1 id2 : Nat) (ps : List ReportPurchase)
    (hp : p0 ≠ "") (h0 : countRef p0 ps = 0) :
    checkout_payment_completed (some p0) amt id2
        (checkout_payment_completed (some p0) amt id1 ps)
      = checkout_payment_completed (some p0) amt id1 ps ∧
    countRef p0 (checkout_payment_completed (some p0) amt id1 ps) = 1 ∧
    (∀ q : String, countRef q ps ≤ 1 →
      countRef q (checkout_payment_completed (some p0) amt id1 ps) ≤ 1) := by
  have hnil : ps.filter (fun p => decide (p.stripe_payment_intent = p0)) = [] :=
    List.length_eq_zero.mp h0
  have hall := List.filter_eq_nil_iff.mp hnil
  have hany : ps.any (fun p => decide (p.stripe_payment_intent = p0)) = false := by
    rw [List.any_eq_false]; exact hall
  have hrow : checkout_payment_completed (some p0) amt id1 ps
      = ps ++ [{ id := id1, stripe_payment_intent := p0, amount := amt.getD 0,
                 consumed := false, consumed_at := none }] := by
    unfold checkout_payment_completed
    dsimp only
    rw [if_pos]
    exact ⟨hp, by rw [hany]; exact Bool.false_ne_true⟩
  refine ⟨?_, ?_, ?_⟩
  · rw [hrow]
    unfold checkout_payment_completed
    dsimp only
    rw [if_neg]
    intro hcond
    apply hcond.2
    rw [List.any_append]
    simp
  · rw [hrow]
    unfold countRef
    rw [List.filter_append, List.length_append]
    have h2 : countRef p0 ps = 0 := h0
    unfold countRef at h2
    rw [h2]
    simp
  · intro q hq
    rw [hrow]
    unfold countRef at hq ⊢
    rw [List.filter_append, List.length_append]
    by_cases hqe : p0 = q
    · subst hqe
      rw [hnil] at *
      simp
    · have h3 : List.filter (fun p => decide (p.stripe_payment_intent = q))
          [{ id := id1, stripe_payment_intent := p0, amount := amt.getD 0,
             consumed := false, consumed_at := none }] = ([] : List ReportPurchase) := by
        simp [hqe]
      rw [h3]
      simpa using hq

/-- Witness for C8: delivering a payment-intent event twice on an empty
ledger produces exactly one row. -/
theorem checkout_payment_idempotent_witness :
    ("pi_1" : String) ≠ "" ∧ countRef "pi_1" [] = 0 ∧
    (checkout_payment_completed (some "pi_1") (some 500) 2
        (checkout_payment_completed (some "pi_1") (some 500) 1 [])
      = checkout_payment_completed (some "pi_1") (some 500) 1 [] ∧
    countRef "pi_1" (checkout_payment_completed (some "pi_1") (some 500) 1 []) = 1 ∧
    (∀ q : String, countRef q [] ≤ 1 →
      countRef q (checkout_payment_completed (some "pi_1") (some 500) 1 []) ≤ 1)) :=
  ⟨by decide, by decide,
   checkout_payment_idempotent "pi_1" (some 500) 1 2 [] (by decide) (by decide)⟩

/-! ## Path lemmas for the reservation and commit service -/

theorem reserve_credit_one_time_path (a : Int → Int)
    (h : ∀ t : Int, t + oneSecond ≤ a t) (now : Int) (uid : Nat) (units : Int)
    (st : LedgerState) (p : ReportPurchase)
    (hu : ¬ units ≤ 0) (hp : oldestUnconsumed st.purchases = some p) :
    reserve_credit a h now uid units st =
      ((true, some { source := "one_time", purchase_id := some p.id,
                     user_id := uid, units := 1 }, "using one-time credit"), st) := by
  unfold reserve_credit
  rw [if_neg hu, hp]

theorem reserve_credit_subscription_path (a : Int → Int)
    (h : ∀ t : Int, t + oneSecond ≤ a t) (now : Int) (uid : Nat) (units : Int)
    (st : LedgerState)
    (hu : ¬ units ≤ 0) (hnone : oldestUnconsumed st.purchases = none) :
    reserve_credit a h now uid units st =
      (let r := remaining_subscription_credits a h now (st.sub.getD defaultSubscription)
       if r.2 ≥ units then
         ((true, some { source := "subscription", purchase_id := none,
                        user_id := uid, units := units },
           "using subscription credits (" ++ toString units ++ ")"),
          { st with sub := some r.1 })
       else
         ((false, none, insufficientMsg units r.2), { st with sub := some r.1 })) := by
  unfold reserve_credit
  rw [if_neg hu, hnone]

theorem commit_credit_subscription (now : Int) (t : CreditTicket)
    (st : LedgerState) (s : Subscription)
    (hs : st.sub = some s) (ht : t.source = "subscription") :
    commit_credit now t st = some { st with sub := some { s with period_usage := some (s.period_usage.getD 0 + t.units) } } := by
  unfold commit_credit
  rw [ht, if_neg (by decide), hs]

/-- C4: for every user owning at least one unconsumed ReportPurchase and
every `units ≥ 1`, `reserve` returns a `one_time` ticket referencing the
oldest unconsumed purchase (FIFO by creation order, i.e. minimal primary
key), covering the entire request with a single purchase redemption, without
reading or consuming any subscription credits: the durable state is
unchanged and the result does not depend on the subscription row. -/
theorem reserve_prefers_one_time (a : Int → Int)
    (h : ∀ t : Int, t + oneSecond ≤ a t) (now : Int) (uid : Nat) (units : Int)
    (st : LedgerState)
    (hu : 1 ≤ units)
    (hex : ∃ q ∈ st.purchases, q.consumed = false) :
    ∃ p, p ∈ st.purchases ∧ p.consumed = false ∧
      (∀ q ∈ st.purchases, q.consumed = false → p.id ≤ q.id) ∧
      reserve_credit a h now uid units st =
        ((true, some { source := "one_time", purchase_id := some p.id,
                       user_id := uid, units := 1 }, "using one-time credit"), st) ∧
      (∀ o : Option Subscription,
        reserve_credit a h now uid units { st with sub := o } =
          ((true, some { source := "one_time", purchase_id := some p.id,
                         user_id := uid, units := 1 }, "using one-time credit"),
           { st with sub := o })) := by
  obtain ⟨q, hq, hqc⟩ := hex
  obtain ⟨p, hp⟩ := Option.isSome_iff_exists.mp (oldestUnconsumed_isSome st.purchases q hq hqc)
  obtain ⟨hmem, hcons, hmin⟩ := oldestUnconsumed_spec st.purchases p hp
  have hu2 : ¬ units ≤ 0 := by omega
  refine ⟨p, hmem, hcons, hmin,
    reserve_credit_one_time_path a h now uid units st p hu2 hp, fun o => ?_⟩
  exact reserve_credit_one_time_path a h now uid units { st with sub := o } p hu2 hp

/-- Three purchase rows: the oldest (id 1) already consumed, ids 2 and 3
unconsumed. -/
def purchases3 : List ReportPurchase :=
  [{ id := 3, stripe_payment_intent := "pi_3", amount := 500, consumed := false,
     consumed_at := none },
   { id := 1, stripe_payment_intent := "pi_1", amount := 500, consumed := true,
     consumed_at := some 50 },
   { id := 2, stripe_payment_intent := "pi_2", amount := 500, consumed := false,
     consumed_at := none }]

/-- Witness for C4: with rows 1 (consumed), 2 and 3 (unconsumed), `reserve`
issues a one-time ticket for row 2. -/
theorem reserve_prefers_one_time_witness :
    (1 : Int) ≤ 4 ∧ (∃ q ∈ purchases3, q.consumed = false) ∧
    (∃ p, p ∈ purchases3 ∧ p.consumed = false ∧
      (∀ q ∈ purchases3, q.consumed = false → p.id ≤ q.id) ∧
      reserve_credit addMonth30 addMonth30_ge 100 7 4
          { sub := some essSub, purchases := purchases3 } =
        ((true, some { source := "one_time", purchase_id := some p.id,
                       user_id := 7, units := 1 }, "using one-time credit"),
         { sub := some essSub, purchases := purchases3 }) ∧
      (∀ o : Option Subscription,
        reserve_credit addMonth30 addMonth30_ge 100 7 4
            { sub := o, purchases := purchases3 } =
          ((true, some { source := "one_time", purchase_id := some p.id,
                         user_id := 7, units := 1 }, "using one-time credit"),
           { sub := o, purchases := purchases3 }))) :=
  ⟨by decide, by decide,
   reserve_prefers_one_time addMonth30 addMonth30_ge 100 7 4
     { sub := some essSub, purchases := purchases3 } (by decide) (by decide)⟩

/-- The 1-unit subscription reservation ticket issued when `remaining = 1`. -/
def subTicket : CreditTicket :=
  { source := "subscription", purchase_id := none, user_id := 7, units := 1 }

/-- Ledger state holding `essSub` (cap 6, usage 5, so remaining = 1) and no
purchases. -/
def stEss : LedgerState := { sub := some essSub, purchases := [] }

/-- Counterexample to C1: with `remaining = 1` and two pre-issued 1-unit
tickets, both commits succeed (serialized by the row lock) and `period_usage`
rises from 5 to 7 — an increase of 2, not 1, and past the cap of 6; the
second commit does not observe the cap nor report failure. -/
theorem commit_pair_overruns_cap :
    (remaining_subscription_credits addMonth30 addMonth30_ge 100 essSub).2 = 1 ∧
    (reserve_credit addMonth30 addMonth30_ge 100 7 1 stEss).1
      = (true, some subTicket, "using subscription credits (1)") ∧
    (commit_credit 100 subTicket stEss).bind (commit_credit 101 subTicket)
      = some { sub := some { essSub with period_usage := some 7 }, purchases := [] } ∧
    ¬ (7 : Int) = 5 + 1 := by
  have hwin : ensure_period addMonth30 addMonth30_ge 100 essSub = essSub :=
    ensure_period_within addMonth30 addMonth30_ge 100 essSub 0
      (addMonth30 0 - oneSecond) rfl rfl (by decide)
  have hrem : remaining_subscription_credits addMonth30 addMonth30_ge 100 essSub
      = (essSub, 1) := by
    unfold remaining_subscription_credits
    rw [hwin]
    decide
  refine ⟨by rw [hrem], ?_, by decide, by decide⟩
  rw [reserve_credit_subscription_path addMonth30 addMonth30_ge 100 7 1 stEss
      (by decide) (by decide)]
  have hsd : stEss.sub.getD defaultSubscription = essSub := rfl
  rw [hsd, hrem]
  decide

/-- C1 (amended): two commit calls for the same subscription, serialized by
the row lock, each increment `period_usage` by their ticket's units
unconditionally — commit never re-checks the cap and never reports failure,
so with `remaining = 1` and two 1-unit tickets the usage increases by 2. -/
theorem commit_pair_increments_twice (now1 now2 : Int) (t u : CreditTicket)
    (st : LedgerState) (s : Subscription)
    (hs : st.sub = some s) (ht : t.source = "subscription")
    (hu : u.source = "subscription") :
    (commit_credit now1 t st).bind (commit_credit now2 u)
      = some { st with sub := some { s with period_usage := some (s.period_usage.getD 0 + t.units + u.units) } } := by
  rw [commit_credit_subscription now1 t st s hs ht, Option.some_bind,
      commit_credit_subscription now2 u _ _ rfl hu]
  rfl

/-- Witness for the amended C1 at the concrete `remaining = 1` state. -/
theorem commit_pair_increments_twice_witness :
    stEss.sub = some essSub ∧ subTicket.source = "subscription" ∧
    (commit_credit 100 subTicket stEss).bind (commit_credit 101 subTicket)
      = some { stEss with sub := some { essSub with period_usage := some (essSub.period_usage.getD 0 + subTicket.units + subTicket.units) } } :=
  ⟨rfl, rfl,
   commit_pair_increments_twice 100 101 subTicket subTicket stEss essSub rfl rfl rfl⟩

/-- Counterexample to C6: the immediate-cancel view sets `status = canceled`
on a paid subscription while leaving the provider subscription reference and
the plan untouched, so the canceled-implies-cleared invariant fails right
after this local operation. -/
theorem cancel_now_violates_invariant :
    canceledInvariant essSub ∧
    cancel_subscription_now essSub
      = some { essSub with status := "canceled", cancel_at_period_end := false } ∧
    ¬ canceledInvariant { essSub with status := "canceled", cancel_at_period_end := false } :=
  ⟨by decide, by decide, by decide⟩

/-- C6 (amended): the deleted-event handler establishes the
canceled-implies-cleared invariant unconditionally, and the window
calculator, credit service, free-plan activation, trial stamping and
cancel-at-period-end flagging all preserve it; the invariant is not preserved
by the immediate-cancel view (which marks the row canceled but leaves plan
and provider reference in place until the deleted webhook arrives), nor
guaranteed by the handlers that copy provider status verbatim. -/
theorem canceled_invariant_scope (a : Int → Int)
    (h : ∀ t : Int, t + oneSecond ≤ a t) (now : Int)
    (payload : StripeSubPayload) (s : Subscription)
    (uid : Nat) (units : Int) (t : CreditTicket) (st st' : LedgerState) :
    canceledInvariant (subscription_lifecycle_event true payload s) ∧
    (canceledInvariant s → canceledInvariant (ensure_period a h now s)) ∧
    (canceledInvariant s → canceledInvariant (remaining_subscription_credits a h now s).1) ∧
    canceledInvariant (free_plan_activate s) ∧
    canceledInvariant (stamp_free_trial a now s) ∧
    (canceledInvariant s →
      ∀ r, cancel_subscription_at_period_end s = some r → canceledInvariant r) ∧
    ((∀ s0, st.sub = some s0 → canceledInvariant s0) →
      ∀ s1, (reserve_credit a h now uid units st).2.sub = some s1 → canceledInvariant s1) ∧
    ((∀ s0, st.sub = some s0 → canceledInvariant s0) →
      commit_credit now t st = some st' →
      ∀ s1, st'.sub = some s1 → canceledInvariant s1) := by
  have hep : ∀ s2 : Subscription, canceledInvariant s2 →
      canceledInvariant (ensure_period a h now s2) := by
    intro s2 hinv hc
    rw [ensure_period_status] at hc
    obtain ⟨h1, h2⟩ := hinv hc
    exact ⟨by rw [ensure_period_ssid]; exact h1, by rw [ensure_period_plan]; exact h2⟩
  refine ⟨fun _ => ⟨rfl, rfl⟩, hep s, ?_, ?_, ?_, ?_, ?_, ?_⟩
  · intro hinv
    rw [remaining_fst]
    exact hep s hinv
  · intro hc
    have h2 : (free_plan_activate s).status = "active" := rfl
    rw [h2] at hc
    exact absurd hc (by decide)
  · intro hc
    have h2 : (stamp_free_trial a now s).status = "trialing" := rfl
    rw [h2] at hc
    exact absurd hc (by decide)
  · intro hinv r hr
    unfold cancel_subscription_at_period_end at hr
    by_cases ht : truthyS s.stripe_subscription_id
    · rw [if_pos ht] at hr
      obtain rfl := Option.some_inj.mp hr
      intro hc
      exact hinv hc
    · rw [if_neg ht] at hr
      exact Option.noConfusion hr
  · intro hall s1 hs1
    have hbase : canceledInvariant (st.sub.getD defaultSubscription) := by
      rcases hsub : st.sub with _ | s0
      · intro hc; exact absurd hc (by decide)
      · exact hall s0 hsub
    unfold reserve_credit at hs1
    split at hs1
    · exact hall s1 hs1
    · split at hs1
      · exact hall s1 hs1
      · dsimp only at hs1
        split at hs1 <;>
          (obtain rfl := Option.some_inj.mp hs1.symm;
           rw [remaining_fst]; exact hep _ hbase)
  · intro hall hcm s1 hs1
    unfold commit_credit at hcm
    split at hcm
    · split at hcm
      · exact Option.noConfusion hcm
      · split at hcm
        · exact Option.noConfusion hcm
        · obtain rfl := Option.some_inj.mp hcm.symm
          exact hall s1 hs1
    · split at hcm
      · exact Option.noConfusion hcm
      · next s0 hsub =>
          obtain rfl := Option.some_inj.mp hcm.symm
          dsimp only at hs1
          obtain rfl := Option.some_inj.mp hs1.symm
          intro hc
          obtain ⟨h1, h2⟩ := hall s0 hsub hc
          exact ⟨h1, h2⟩

/-- Witness for the amended C6 at concrete inputs. -/
theorem canceled_invariant_scope_witness :
    canceledInvariant (subscription_lifecycle_event true noItemsPayload essSub) ∧
    (canceledInvariant essSub →
      canceledInvariant (ensure_period addMonth30 addMonth30_ge 100 essSub)) ∧
    (canceledInvariant essSub →
      canceledInvariant (remaining_subscription_credits addMonth30 addMonth30_ge 100 essSub).1) ∧
    canceledInvariant (free_plan_activate essSub) ∧
    canceledInvariant (stamp_free_trial addMonth30 100 essSub) ∧
    (canceledInvariant essSub →
      ∀ r, cancel_subscription_at_period_end essSub = some r → canceledInvariant r) ∧
    ((∀ s0, stEss.sub = some s0 → canceledInvariant s0) →
      ∀ s1, (reserve_credit addMonth30 addMonth30_ge 100 7 1 stEss).2.sub = some s1 →
        canceledInvariant s1) ∧
    ((∀ s0, stEss.sub = some s0 → canceledInvariant s0) →
      commit_credit 100 subTicket stEss = some stEss →
      ∀ s1, stEss.sub = some s1 → canceledInvariant s1) :=
  canceled_invariant_scope addMonth30 addMonth30_ge 100 noItemsPayload essSub
    7 1 subTicket stEss stEss

/-- Counterexample to C7: the free-plan activation branch of the checkout
view — a locally initiated action, not a webhook handler — sets `status` to
`active` (here on a fresh `inactive` row), while the claim allows local
actions to set only `trialing`. -/
theorem free_plan_activation_sets_active :
    defaultSubscription.status = "inactive" ∧
    (free_plan_activate defaultSubscription).status = "active" ∧
    ("active" : String) ≠ "trialing" :=
  ⟨rfl, rfl, by decide⟩

/-- C7 (amended): locally initiated actions can set `status` to `trialing`
(free-trial stamping), but also to `active` (free-plan activation) and
`canceled` (immediate cancel); the remaining local operations — flagging
cancel-at-period-end, the window calculator, reservation (which at most
creates the default `inactive` row) and commit — never change `status`, so
among the provider-truth statuses only `past_due` is set exclusively by the
Reconciler (its invoice-failed handler). -/
theorem local_status_transitions (a : Int → Int)
    (h : ∀ t : Int, t + oneSecond ≤ a t) (now : Int) (s : Subscription)
    (uid : Nat) (units : Int) (t : CreditTicket) (st st' : LedgerState) :
    (free_plan_activate s).status = "active" ∧
    (∀ r, cancel_subscription_now s = some r → r.status = "canceled") ∧
    (∀ r, cancel_subscription_at_period_end s = some r → r.status = s.status) ∧
    (stamp_free_trial a now s).status = "trialing" ∧
    (ensure_period a h now s).status = s.status ∧
    defaultSubscription.status = "inactive" ∧
    (∀ s1, (reserve_credit a h now uid units st).2.sub = some s1 →
      s1.status = (st.sub.getD defaultSubscription).status) ∧
    (commit_credit now t st = some st' →
      st'.sub.map Subscription.status = st.sub.map Subscription.status) ∧
    (invoice_payment_failed s).status = "past_due" := by
  refine ⟨rfl, ?_, ?_, rfl, ensure_period_status a h now s, rfl, ?_, ?_, rfl⟩
  · intro r hr
    unfold cancel_subscription_now at hr
    by_cases ht : truthyS s.stripe_subscription_id
    · rw [if_pos ht] at hr
      obtain rfl := Option.some_inj.mp hr
      rfl
    · rw [if_neg ht] at hr
      exact Option.noConfusion hr
  · intro r hr
    unfold cancel_subscription_at_period_end at hr
    by_cases ht : truthyS s.stripe_subscription_id
    · rw [if_pos ht] at hr
      obtain rfl := Option.some_inj.mp hr
      rfl
    · rw [if_neg ht] at hr
      exact Option.noConfusion hr
  · intro s1 hs1
    unfold reserve_credit at hs1
    split at hs1
    · rw [hs1]
      rfl
    · split at hs1
      · rw [hs1]
        rfl
      · dsimp only at hs1
        split at hs1 <;>
          (obtain rfl := Option.some_inj.mp hs1.symm;
           rw [remaining_fst, ensure_period_status])
  · intro hcm
    unfold commit_credit at hcm
    split at hcm
    · split at hcm
      · exact Option.noConfusion hcm
      · split at hcm
        · exact Option.noConfusion hcm
        · obtain rfl := Option.some_inj.mp hcm.symm
          rfl
    · split at hcm
      · exact Option.noConfusion hcm
      · next s0 hsub =>
          obtain rfl := Option.some_inj.mp hcm.symm
          rw [hsub]
          rfl

/-- Witness for the amended C7 at concrete inputs. -/
theorem local_status_transitions_witness :
    (free_plan_activate essSub).status = "active" ∧
    (∀ r, cancel_subscription_now essSub = some r → r.status = "canceled") ∧
    (∀ r, cancel_subscription_at_period_end essSub = some r → r.status = essSub.status) ∧
    (stamp_free_trial addMonth30 100 essSub).status = "trialing" ∧
    (ensure_period addMonth30 addMonth30_ge 100 essSub).status = essSub.status ∧
    defaultSubscription.status = "inactive" ∧
    (∀ s1, (reserve_credit addMonth30 addMonth30_ge 100 7 1 stEss).2.sub = some s1 →
      s1.status = (stEss.sub.getD defaultSubscription).status) ∧
    (commit_credit 100 subTicket stEss = some stEss →
      stEss.sub.map Subscription.status = stEss.sub.map Subscription.status) ∧
    (invoice_payment_failed essSub).status = "past_due" :=
  local_status_transitions addMonth30 addMonth30_ge 100 essSub 7 1 subTicket stEss stEss

/-- C9: a fresh free-trial subscription (`plan=free`, `status=trialing`,
`trial_end` in the future, `period_usage=0`, current window, no unconsumed
one-time purchase): `reserve(1)` succeeds with a 1-unit subscription ticket;
once that ticket is committed, every later `reserve(1)` before window
rollover fails with "need 1, have 0" — the trial grants exactly one report. -/
theorem free_trial_single_report (a : Int → Int)
    (h : ∀ t : Int, t + oneSecond ≤ a t) (now now2 : Int) (uid : Nat)
    (st : LedgerState) (s : Subscription) (s0 e0 te : Int)
    (hsub : st.sub = some s)
    (hplan : s.plan = "free") (hstat : s.status = "trialing")
    (hte : s.trial_end = some te) (hnow : now ≤ te)
    (husage : s.period_usage = some 0)
    (hws : s.current_period_start = some s0)
    (hwe : s.current_period_end = some e0)
    (hin : now ≤ e0)
    (hcons : ∀ q ∈ st.purchases, q.consumed = true)
    (hnow2 : now2 ≤ e0) :
    reserve_credit a h now uid 1 st
      = ((true, some { source := "subscription", purchase_id := none,
                       user_id := uid, units := 1 },
          "using subscription credits (1)"), st) ∧
    ∃ st2, commit_credit now { source := "subscription", purchase_id := none,
                               user_id := uid, units := 1 } st = some st2 ∧
      (reserve_credit a h now2 uid 1 st2).1 = (false, none, insufficientMsg 1 0) := by
  obtain ⟨sto, stp⟩ := st
  simp only at hsub hcons
  subst hsub
  have hep1 : ensure_period a h now s = s :=
    ensure_period_within a h now s s0 e0 hws hwe (by omega)
  have hrem1 : remaining_subscription_credits a h now s = (s, 1) := by
    unfold remaining_subscription_credits
    rw [hep1]
    dsimp only
    rw [hplan, hstat, hte, husage]
    simp [decide_eq_true hnow]
  constructor
  · rw [reserve_credit_subscription_path a h now uid 1 ⟨some s, stp⟩ (by omega)
        (oldestUnconsumed_none _ hcons)]
    simp only [Option.getD_some]
    rw [hrem1]
    dsimp only
    rw [if_pos (by norm_num : (1:Int) ≥ 1)]
    have hstr : "using subscription credits (" ++ toString (1:Int) ++ ")"
        = "using subscription credits (1)" := by decide
    rw [hstr]
  · have hcm := commit_credit_subscription now
      { source := "subscription", purchase_id := none, user_id := uid, units := 1 }
      ⟨some s, stp⟩ s rfl rfl
    refine ⟨_, hcm, ?_⟩
    have hws2 : ({ s with period_usage := some (s.period_usage.getD 0 + (1:Int)) } : Subscription).current_period_start = some s0 := hws
    have hwe2 : ({ s with period_usage := some (s.period_usage.getD 0 + (1:Int)) } : Subscription).current_period_end = some e0 := hwe
    have hep2 : ensure_period a h now2
        { s with period_usage := some (s.period_usage.getD 0 + (1:Int)) }
        = { s with period_usage := some (s.period_usage.getD 0 + (1:Int)) } :=
      ensure_period_within a h now2 _ s0 e0 hws2 hwe2 (by omega)
    have hrem2 : remaining_subscription_credits a h now2
        { s with period_usage := some (s.period_usage.getD 0 + (1:Int)) }
        = ({ s with period_usage := some (s.period_usage.getD 0 + (1:Int)) }, 0) := by
      unfold remaining_subscription_credits
      rw [hep2]
      dsimp only
      rw [hplan, hstat, hte, husage]
      by_cases hnt : now2 ≤ te <;> simp [hnt]
    rw [reserve_credit_subscription_path a h now2 uid 1 _ (by omega)
        (oldestUnconsumed_none _ hcons)]
    simp only [Option.getD_some]
    rw [hrem2]
    dsimp only
    rw [if_neg (by norm_num : ¬ (0:Int) ≥ 1)]

/-- A fresh free-trial subscription started at time 0. -/
def trialSub : Subscription :=
  { plan := "free", interval := none, stripe_customer_id := none,
    stripe_subscription_id := none, status := "trialing",
    trial_start := some 0, trial_end := some fourteenDays,
    current_period_start := some 0,
    current_period_end := some (addMonth30 0 - oneSecond),
    period_usage := some 0, cancel_at_period_end := false }

/-- Witness for C9 on the concrete fresh-trial state. -/
theorem free_trial_single_report_witness :
    (LedgerState.mk (some trialSub) []).sub = some trialSub ∧
    trialSub.plan = "free" ∧ trialSub.status = "trialing" ∧
    trialSub.trial_end = some fourteenDays ∧ (100 : Int) ≤ fourteenDays ∧
    trialSub.period_usage = some 0 ∧
    trialSub.current_period_start = some 0 ∧
    trialSub.current_period_end = some (addMonth30 0 - oneSecond) ∧
    (100 : Int) ≤ addMonth30 0 - oneSecond ∧
    (∀ q ∈ (LedgerState.mk (some trialSub) []).purchases, q.consumed = true) ∧
    (200 : Int) ≤ addMonth30 0 - oneSecond ∧
    (reserve_credit addMonth30 addMonth30_ge 100 7 1 (LedgerState.mk (some trialSub) [])
      = ((true, some { source := "subscription", purchase_id := none,
                       user_id := 7, units := 1 },
          "using subscription credits (1)"), LedgerState.mk (some trialSub) []) ∧
    ∃ st2, commit_credit 100 { source := "subscription", purchase_id := none,
                               user_id := 7, units := 1 }
        (LedgerState.mk (some trialSub) []) = some st2 ∧
      (reserve_credit addMonth30 addMonth30_ge 200 7 1 st2).1
        = (false, none, insufficientMsg 1 0)) :=
  ⟨rfl, rfl, rfl, rfl, by decide, rfl, rfl, rfl, by decide, by decide, by decide,
   free_trial_single_report addMonth30 addMonth30_ge 100 200 7
     (LedgerState.mk (some trialSub) []) trialSub 0 (addMonth30 0 - oneSecond)
     fourteenDays rfl rfl rfl rfl (by decide) rfl rfl rfl (by decide)
     (by decide) (by decide)⟩

/-- The state of `essSub` after its stale window (ending one second before
`addMonth30 0`) is rolled forward once. -/
def rolledSub : Subscription :=
  { essSub with current_period_start := some (addMonth30 0),
                current_period_end := some (addMonth30 (addMonth30 0) - oneSecond),
                period_usage := some 0 }

/-- Evaluation of the credit computation on `essSub` five seconds after its
window end: the window rolls once, usage resets, and 6 credits remain. -/
theorem remaining_stale_eval :
    remaining_subscription_credits addMonth30 addMonth30_ge (addMonth30 0 + 5) essSub
      = (rolledSub, 6) := by
  have hroll : rollForward addMonth30 addMonth30_ge (addMonth30 0 + 5) 0
      (addMonth30 0 - oneSecond) essSub.period_usage
      = (addMonth30 0, addMonth30 (addMonth30 0) - oneSecond, some 0) := by
    rw [rollForward_step _ _ _ _ _ _ (by decide), rollForward_stop _ _ _ _ _ _ (by decide)]
    decide
  have hep : ensure_period addMonth30 addMonth30_ge (addMonth30 0 + 5) essSub = rolledSub := by
    rw [ensure_period_eq_roll addMonth30 addMonth30_ge (addMonth30 0 + 5) essSub 0
        (addMonth30 0 - oneSecond) rfl rfl, hroll]
    rfl
  unfold remaining_subscription_credits
  rw [hep]
  decide

/-- Counterexample to C3: on `essSub` (no purchases) queried 5 seconds after
its window end with `units = 7`, `reserve` fails with the exact "need 7, have
6" message but durably mutates state: the lazily normalised window advance
and usage reset are saved by `ensure_period` inside the failing reservation. -/
theorem reserve_failure_mutates_state :
    (reserve_credit addMonth30 addMonth30_ge (addMonth30 0 + 5) 7 7 stEss).1
      = (false, none, insufficientMsg 7 6) ∧
    insufficientMsg 7 6 = "Not enough subscription credits. Need 7, have 6. Buy a one-time PDF or upgrade your plan." ∧
    (reserve_credit addMonth30 addMonth30_ge (addMonth30 0 + 5) 7 7 stEss).2 ≠ stEss := by
  rw [reserve_credit_subscription_path addMonth30 addMonth30_ge (addMonth30 0 + 5) 7 7 stEss
      (by decide) (by decide)]
  have hsd : stEss.sub.getD defaultSubscription = essSub := rfl
  rw [hsd, remaining_stale_eval]
  refine ⟨by decide, by decide, by decide⟩

/-- C3 (amended): for every user with no unconsumed one-time purchase and
`units ≥ 1` exceeding the remaining subscription credits, `reserve` returns
failure with no ticket and a message stating exactly the units needed and the
remaining credits; the only durable mutation is the lazy `get_or_create` of
the Subscription row plus `ensure_period`'s window normalisation — no usage
is consumed and no purchase is touched. -/
theorem reserve_insufficient_reports_shortfall (a : Int → Int)
    (h : ∀ t : Int, t + oneSecond ≤ a t) (now : Int) (uid : Nat) (units : Int)
    (st : LedgerState)
    (hcons : ∀ q ∈ st.purchases, q.consumed = true)
    (hu : 1 ≤ units)
    (hrem : (remaining_subscription_credits a h now (st.sub.getD defaultSubscription)).2 < units) :
    reserve_credit a h now uid units st
      = ((false, none,
          insufficientMsg units
            (remaining_subscription_credits a h now (st.sub.getD defaultSubscription)).2),
         { st with sub := some (ensure_period a h now (st.sub.getD defaultSubscription)) }) := by
  rw [reserve_credit_subscription_path a h now uid units st (by omega)
      (oldestUnconsumed_none _ hcons)]
  dsimp only
  rw [if_neg (by omega), remaining_fst]

/-- Witness for the amended C3 on the concrete stale-window state. -/
theorem reserve_insufficient_reports_shortfall_witness :
    (∀ q ∈ stEss.purchases, q.consumed = true) ∧ (1 : Int) ≤ 7 ∧
    (remaining_subscription_credits addMonth30 addMonth30_ge (addMonth30 0 + 5) essSub).2 < 7 ∧
    reserve_credit addMonth30 addMonth30_ge (addMonth30 0 + 5) 7 7 stEss
      = ((false, none,
          insufficientMsg 7
            (remaining_subscription_credits addMonth30 addMonth30_ge (addMonth30 0 + 5) essSub).2),
         { stEss with sub := some (ensure_period addMonth30 addMonth30_ge (addMonth30 0 + 5) essSub) }) :=
  ⟨by decide, by decide, by rw [remaining_stale_eval]; decide,
   reserve_insufficient_reports_shortfall addMonth30 addMonth30_ge (addMonth30 0 + 5)
     7 7 stEss (by decide) (by decide)
     (by show (remaining_subscription_credits addMonth30 addMonth30_ge
            (addMonth30 0 + 5) essSub).2 < 7
         rw [remaining_stale_eval]; decide)⟩

/-- Counterexample to C2: `essSub`'s window ends at `addMonth30 0 − 1s`;
calling `ensure_period` half a second after that end rolls the window once to
a start of `addMonth30 0`, which lies strictly in the future of `now` — the
claimed postcondition `current_period_start ≤ now` fails. -/
theorem ensure_period_start_can_exceed_now :
    (ensure_period addMonth30 addMonth30_ge (addMonth30 0 - oneSecond + 500000) essSub).current_period_start
      = some (addMonth30 0) ∧
    addMonth30 0 - oneSecond + 500000 < addMonth30 0 := by
  have hroll : rollForward addMonth30 addMonth30_ge (addMonth30 0 - oneSecond + 500000) 0
      (addMonth30 0 - oneSecond) essSub.period_usage
      = (addMonth30 0, addMonth30 (addMonth30 0) - oneSecond, some 0) := by
    rw [rollForward_step _ _ _ _ _ _ (by decide), rollForward_stop _ _ _ _ _ _ (by decide)]
    decide
  refine ⟨?_, by decide⟩
  rw [ensure_period_eq_roll addMonth30 addMonth30_ge (addMonth30 0 - oneSecond + 500000)
      essSub 0 (addMonth30 0 - oneSecond) rfl rfl, hroll]

/-- C2 (amended): `ensure_period` terminates for every subscription and
instant (the embedding is a total function, with the loop's termination
measured by how far `now` lies past the window end); on return
`now ≤ current_period_end`; when no window exists it creates the window
`(now, now + 1 month − 1s)` with usage 0; an existing current window is left
untouched; and whenever at least one boundary is crossed the usage is reset
to 0.  The originally claimed lower bound `current_period_start ≤ now` does
not hold in general (it can fail by up to one second, see the
counterexample). -/
theorem ensure_period_spec (a : Int → Int)
    (h : ∀ t : Int, t + oneSecond ≤ a t) (now : Int) (sub : Subscription) :
    (∃ e', (ensure_period a h now sub).current_period_end = some e' ∧ now ≤ e') ∧
    ((sub.current_period_start = none ∨ sub.current_period_end = none) →
      ensure_period a h now sub
        = { sub with current_period_start := some now,
                     current_period_end := some (a now - oneSecond),
                     period_usage := some 0 }) ∧
    (∀ s0 e0, sub.current_period_start = some s0 → sub.current_period_end = some e0 →
      (now ≤ e0 → ensure_period a h now sub = sub) ∧
      (e0 < now → (ensure_period a h now sub).period_usage = some 0)) :=
  ⟨ensure_period_now_le_end a h now sub,
   ensure_period_no_window a h now sub,
   fun s0 e0 hs he =>
     ⟨fun hle => ensure_period_within a h now sub s0 e0 hs he (by omega),
      fun hgt => ensure_period_rolled_usage a h now sub s0 e0 hs he (by omega)⟩⟩

/-- Witness for the amended C2 at a concrete instant inside `essSub`'s
window. -/
theorem ensure_period_spec_witness :
    (∃ e', (ensure_period addMonth30 addMonth30_ge 100 essSub).current_period_end = some e' ∧
      (100 : Int) ≤ e') ∧
    ((essSub.current_period_start = none ∨ essSub.current_period_end = none) →
      ensure_period addMonth30 addMonth30_ge 100 essSub
        = { essSub with current_period_start := some 100,
                        current_period_end := some (addMonth30 100 - oneSecond),
                        period_usage := some 0 }) ∧
    (∀ s0 e0, essSub.current_period_start = some s0 → essSub.current_period_end = some e0 →
      ((100 : Int) ≤ e0 → ensure_period addMonth30 addMonth30_ge 100 essSub = essSub) ∧
      (e0 < 100 → (ensure_period addMonth30 addMonth30_ge 100 essSub).period_usage = some 0)) :=
  ensure_period_spec addMonth30 addMonth30_ge 100 essSub

end AthleteAI
